import Mathlib

/-!
Shallow embedding of `src/sandbox/sandbox/expression.py` (sandbox-duckdb).

Files are modelled as lists of lines (`List String`); a line may carry
surrounding whitespace, which the source strips before use.  Python's
`str.strip` / `int` / `float` / `str.split` are embedded on character lists.
Parsed floating-point values are kept exactly, as the decimal
`mantissa / 10 ^ scale` that the literal denotes; no float arithmetic is
performed by the source, values only pass through from file to record.
-/

/-- Python whitespace characters recognised by `str.strip()` (ASCII range). -/
def isPySpace (c : Char) : Bool :=
  c == ' ' || c == '\t' || c == '\n' || c == '\r' || c == '\x0b' || c == '\x0c'

/-- Embedding of Python `str.strip()`: drop whitespace from both ends. -/
def pystrip (s : String) : String :=
  String.mk (((s.toList.dropWhile isPySpace).reverse.dropWhile isPySpace).reverse)

/-- Embedding of Python `str.split(sep)` with an explicit one-character
separator: split at every occurrence, keeping empty fields
(`''.split(' ') == ['']`, `'a  b'.split(' ') == ['a', '', 'b']`). -/
def splitChars (sep : Char) : List Char → List (List Char)
  | [] => [[]]
  | c :: rest =>
    match splitChars sep rest with
    | [] => [[]]
    | f :: fs => if c = sep then [] :: f :: fs else (c :: f) :: fs

/-- `stripped_line.split(' ')` from `StreamMatrixData`. -/
def pysplitSpace (s : String) : List String :=
  (splitChars ' ' s.toList).map String.mk

/-- Numeric value of a digit string (most significant first). -/
def digitsToNat (cs : List Char) : Nat :=
  cs.foldl (fun a c => 10 * a + (c.toNat - '0'.toNat)) 0

/-- A nonempty all-digit string parses to its value, otherwise `none`. -/
def parseDigits (cs : List Char) : Option Nat :=
  if cs.isEmpty then none
  else if cs.all Char.isDigit then some (digitsToNat cs) else none

/-- Embedding of Python `int(s)` on the decimal forms the repository's data
files use: optional surrounding whitespace, optional sign, nonempty ASCII
digit run.  (Underscore separators and non-ASCII digits are not modelled;
no claim exercises them.) -/
def pyint (s : String) : Option Int :=
  match (pystrip s).toList with
  | '-' :: cs => (parseDigits cs).map (fun n => -(n : Int))
  | '+' :: cs => (parseDigits cs).map (fun n => (n : Int))
  | cs => (parseDigits cs).map (fun n => (n : Int))

/-- Exact value of a parsed decimal literal: `mantissa / 10 ^ scale`. -/
structure PyFloat where
  mantissa : Int
  scale : Nat
  deriving DecidableEq, Repr

/-- Optional exponent suffix of a float literal: empty means exponent `0`;
`e`/`E` followed by an optionally signed digit run; anything else fails. -/
def parseExp : List Char → Option Int
  | [] => some 0
  | c :: cs =>
    if c = 'e' ∨ c = 'E' then
      match cs with
      | '-' :: ds => (parseDigits ds).map (fun n => -(n : Int))
      | '+' :: ds => (parseDigits ds).map (fun n => (n : Int))
      | ds => (parseDigits ds).map (fun n => (n : Int))
    else none

/-- Apply a decimal exponent to a parsed mantissa/scale pair. -/
def applyExp (v : PyFloat) (e : Int) : PyFloat :=
  if 0 ≤ e then ⟨v.mantissa * 10 ^ e.toNat, v.scale⟩
  else ⟨v.mantissa, v.scale + (-e).toNat⟩

/-- Unsigned part of a float literal: digits, optional `.` and more digits
(at least one digit overall), optional exponent. -/
def parseUFloat (cs : List Char) : Option PyFloat :=
  let ip := cs.takeWhile Char.isDigit
  let rest1 := cs.dropWhile Char.isDigit
  match rest1 with
  | [] => if ip.isEmpty then none else some ⟨(digitsToNat ip : Int), 0⟩
  | '.' :: rest2 =>
    let fp := rest2.takeWhile Char.isDigit
    let rest3 := rest2.dropWhile Char.isDigit
    if ip.isEmpty && fp.isEmpty then none
    else
      (parseExp rest3).map
        (applyExp ⟨(digitsToNat ip : Int) * 10 ^ fp.length + (digitsToNat fp : Int), fp.length⟩)
  | _ =>
    if ip.isEmpty then none
    else (parseExp rest1).map (applyExp ⟨(digitsToNat ip : Int), 0⟩)

/-- Embedding of Python `float(s)` on the decimal forms the repository's data
files use: optional whitespace, optional sign, digits with optional fraction
and exponent.  (The special spellings `inf`/`nan` and underscore separators
are not modelled; no claim exercises them.) -/
def pyfloat (s : String) : Option PyFloat :=
  match (pystrip s).toList with
  | '-' :: cs => (parseUFloat cs).map (fun v => ⟨-v.mantissa, v.scale⟩)
  | '+' :: cs => parseUFloat cs
  | cs => parseUFloat cs

/-- A normalized matrix entry: `(rowOrdinal, colOrdinal, value)`, the result
of `normalize` in `StreamMatrixData`. -/
abbrev Triple := Int × Int × PyFloat

/-- `int(row[0]), int(row[1]), float(row[2])` applied to
`stripped_line.split(' ')` — `normalize` in `StreamMatrixData`.  A list with
fewer than three fields raises (Python `IndexError`); fields beyond the
third are never read. -/
def parseTriple (sl : String) : Option Triple :=
  match pysplitSpace sl with
  | f0 :: f1 :: f2 :: _ => do
    let a ← pyint f0
    let b ← pyint f1
    let c ← pyfloat f2
    some (a, b, c)
  | _ => none

/-- `stripped_line.startswith('%')` for a single-character test: the first
character of the (already stripped) string is `%`. -/
def startsWithPercent (s : String) : Bool :=
  match s.toList with
  | '%' :: _ => true
  | _ => false

/-- A line is a comment when its first non-whitespace character is `%`. -/
def isComment (line : String) : Bool :=
  startsWithPercent (pystrip line)

/-- The non-comment (data) lines of a file, in order. -/
def dataLines (lines : List String) : List String :=
  lines.filter (fun l => !isComment l)

/-- `Option`-valued map that fails when any element fails (the shape of a
Python loop that raises on the first bad element). -/
def mapOptions (f : α → Option β) : List α → Option (List β)
  | [] => some []
  | a :: as =>
    match f a, mapOptions f as with
    | some b, some bs => some (b :: bs)
    | _, _ => none

/-- The parsed triples of all non-comment lines of a file, in file order;
`none` when any data line is malformed. -/
def lineTriples (lines : List String) : Option (List Triple) :=
  mapOptions (fun l => parseTriple (pystrip l)) (dataLines lines)

/-- The loop of `StreamMatrixData`, line by line.  Arguments mirror the
Python state: `ndx` is the index of the next line (from `enumerate`),
`stopndx` is `batch_stopndx`, `batch` is `row_batch`, and `emitted` collects
the value of `row_batch` at each `yield`, i.e. the batch as observed by a
lazily consuming caller such as `LoadMTX` (the Python generator reuses and
clears one list object between yields).  A malformed data line aborts the
whole stream (`none`). -/
def streamGo (N : Nat) : Nat → Nat → List Triple → List (List Triple) →
    List String → Option (List (List Triple))
  | _, _, batch, emitted, [] => some (emitted ++ [batch])
  | ndx, stopndx, batch, emitted, line :: rest =>
    let sl := pystrip line
    if startsWithPercent sl then streamGo N (ndx + 1) stopndx batch emitted rest
    else
      match parseTriple sl with
      | none => none
      | some t =>
        let stop1 := if stopndx = 0 then ndx + (N - 1) else stopndx
        if stop1 ≤ ndx then
          streamGo N (ndx + 1) 0 [t] (emitted ++ [batch]) rest
        else
          streamGo N (ndx + 1) stop1 (batch ++ [t]) emitted rest

/-- `StreamMatrixData(mtx_datafile, batch_size)`: the sequence of batches it
yields, or `none` when a data line fails to parse. -/
def streamMatrix (N : Nat) (lines : List String) : Option (List (List Triple)) :=
  streamGo N 0 0 [] [] lines

/-- `line.strip().split('\t')[0]` from `ParseIDs`: the leading tab-delimited
field of the trimmed line (the longest tab-free prefix; the whole trimmed
line when it contains no tab). -/
def firstField (line : String) : String :=
  String.mk ((pystrip line).toList.takeWhile (fun c => c ≠ '\t'))

/-- The dictionary built by `ParseIDs`, starting from ordinal `k`
(`enumerate(file_handle, start=1)` uses `k = 1`): an association list from
ordinal to the leading tab-delimited field of the corresponding line.
Python `dict` keys are `int`s, so ordinals are `Int`. -/
def parseIDsFrom (k : Int) : List String → List (Int × String)
  | [] => []
  | line :: rest => (k, firstField line) :: parseIDsFrom (k + 1) rest

/-- `ParseIDs(mtx_metafile)`: ordinals `1, 2, ...` mapped to each line's
leading tab-delimited field. -/
def parseIDs (lines : List String) : List (Int × String) :=
  parseIDsFrom 1 lines

/-- One row of the `expr` table as built by `LoadMTX`'s
`f"('{row_id}', '{col_id}', {matrix_row[2]})"` tuple string. -/
structure ExprRecord where
  geneId : String
  cellId : String
  expr : PyFloat
  deriving DecidableEq, Repr

/-- One row of the `clusters` table as built by `LoadClusters`. -/
structure ClusterRecord where
  mclusterId : Int
  dclusterId : Int
  cellId : String
  datasetName : String
  deriving DecidableEq, Repr

/-- The SQL text built by `ExprDB.InsertData`:
`f" INSERT INTO {table_name} VALUES {','.join(tuple_list)}"`. -/
def insertSQL (table : String) (tuples : List String) : String :=
  " INSERT INTO " ++ table ++ " VALUES " ++ String.intercalate "," tuples

/-- Modelled from the spec: the destination database is an external
collaborator that "executes arbitrary SQL text".  An `INSERT` statement
whose `VALUES` clause contains zero tuples (the string `InsertData` builds
from an empty `tuple_list`) is not well-formed SQL, so executing it fails
with a database error; an insert with at least one tuple is accepted. -/
def dbAcceptsInsert (tuples : List α) : Bool :=
  !tuples.isEmpty

/-- How a load call stops early: a malformed line (`ValueError` /
`IndexError` while parsing), a missing ordinal (`KeyError`, a
`LookupError`, during resolution), or a database error from `execute`. -/
inductive LoadErr where
  | parse
  | lookup
  | db
  deriving DecidableEq, Repr

/-- `row_meta[matrix_row[0]]` / `col_meta[matrix_row[1]]` and the tuple
append in `LoadMTX`: resolve one triple through the row and column indexes
(`KeyError` when an ordinal is absent; an empty resolved gene id is logged
but still inserted, so it does not affect the produced record). -/
def resolveTriple (rowMeta colMeta : List (Int × String)) (t : Triple) :
    Option ExprRecord :=
  match List.lookup t.1 rowMeta, List.lookup t.2.1 colMeta with
  | some g, some c => some ⟨g, c, t.2.2⟩
  | _, _ => none

/-- The `for matrix_row in matrix_batch` loop of `LoadMTX`: the batch's
`tuple_list`, or `none` at the first unresolvable ordinal. -/
def resolveBatch (rowMeta colMeta : List (Int × String)) (batch : List Triple) :
    Option (List ExprRecord) :=
  mapOptions (resolveTriple rowMeta colMeta) batch

/-- The per-batch loop of `LoadMTX`: resolve each batch and issue its bulk
insert, stopping at the first failure.  Returns the record lists of the
bulk inserts the database committed, and the error (if any) that stopped
the load. -/
def runBatches (rowMeta colMeta : List (Int × String)) :
    List (List Triple) → List (List ExprRecord) × Option LoadErr
  | [] => ([], none)
  | b :: rest =>
    match resolveBatch rowMeta colMeta b with
    | none => ([], some LoadErr.lookup)
    | some recs =>
      if dbAcceptsInsert recs then
        let r := runBatches rowMeta colMeta rest
        (recs :: r.1, r.2)
      else ([], some LoadErr.db)

/-- `ExprDB.LoadMTX`: build the column and row indexes with `ParseIDs`,
stream the matrix file with the default batch size `1024`, and resolve and
bulk-insert each batch in turn.  The three arguments are the lines of the
`.mtx_cols`, `.mtx_rows` and `_matrix.mtx` files. -/
def loadMTX (colLines rowLines mtxLines : List String) :
    List (List ExprRecord) × Option LoadErr :=
  match streamMatrix 1024 mtxLines with
  | none => ([], some LoadErr.parse)
  | some bs => runBatches (parseIDs rowLines) (parseIDs colLines) bs

/-- One line of `ExprDB.LoadClusters`:
`mcluster_id, dcluster_id, cell_id = line.strip().split('\t')` (exactly
three fields, else `ValueError`), then
`(int(mcluster_id.strip()), int(dcluster_id.strip()), cell_id.strip())`
tagged with the dataset name (`dir_path.name`). -/
def parseClusterLine (datasetName : String) (line : String) :
    Option ClusterRecord :=
  match (splitChars '\t' (pystrip line).toList).map String.mk with
  | [m, d, c] => do
    let mi ← pyint m
    let di ← pyint d
    some ⟨mi, di, pystrip c, datasetName⟩
  | _ => none

/-- `ExprDB.LoadClusters`: parse every line of the cluster file, then issue
a single bulk insert for the whole file.  `datasetName` is the final path
component of the directory (`dir_path.name`).  Returns the record lists of
the committed bulk inserts and the error (if any). -/
def loadClusters (datasetName : String) (lines : List String) :
    List (List ClusterRecord) × Option LoadErr :=
  match mapOptions (parseClusterLine datasetName) lines with
  | none => ([], some LoadErr.parse)
  | some recs =>
    if dbAcceptsInsert recs then ([recs], none)
    else ([], some LoadErr.db)

/-- Does every batch except possibly the last contain exactly `N` triples?
(The batch-size property the spec asserts of `StreamMatrixData`.) -/
def allFullButLast (N : Nat) (bs : List (List Triple)) : Bool :=
  bs.dropLast.all (fun b => b.length == N)


/-! ## Helper lemmas -/

theorem mapOptions_length {f : α → Option β} :
    ∀ {as : List α} {bs : List β}, mapOptions f as = some bs → bs.length = as.length := by
  intro as
  induction as with
  | nil => intro bs h; simp [mapOptions] at h; simp [← h]
  | cons a as ih =>
    intro bs h
    simp only [mapOptions] at h
    cases hfa : f a with
    | none => rw [hfa] at h; cases h
    | some b =>
      cases hrest : mapOptions f as with
      | none => rw [hfa, hrest] at h; cases h
      | some bs' =>
        rw [hfa, hrest] at h
        cases h
        simp [ih hrest]

theorem mapOptions_eq_none_of_mem {f : α → Option β} {a : α} (hf : f a = none) :
    ∀ {as : List α}, a ∈ as → mapOptions f as = none := by
  intro as
  induction as with
  | nil => intro h; cases h
  | cons x as ih =>
    intro h
    rcases List.mem_cons.mp h with rfl | hmem
    · simp [mapOptions, hf]
    · simp only [mapOptions, ih hmem]
      cases f x <;> rfl

theorem dataLines_cons_comment {l : String} (ls : List String) (h : isComment l = true) :
    dataLines (l :: ls) = dataLines ls := by
  simp [dataLines, h]

theorem dataLines_cons_data {l : String} (ls : List String) (h : isComment l = false) :
    dataLines (l :: ls) = l :: dataLines ls := by
  simp [dataLines, h]

theorem dataLines_idem (lines : List String) :
    dataLines (dataLines lines) = dataLines lines := by
  simp [dataLines, List.filter_filter]

/-- Coverage invariant of the `StreamMatrixData` loop: whatever state the
loop is in, a successful run ends with the concatenation of all yielded
batches equal to the triples already accumulated plus the parsed triples of
the remaining data lines, in order. -/
theorem streamGo_join (N : Nat) :
    ∀ (rest : List String) (ndx stopndx : Nat) (batch : List Triple)
      (emitted bs : List (List Triple)),
      streamGo N ndx stopndx batch emitted rest = some bs →
      ∃ ts, lineTriples rest = some ts ∧
        bs.flatten = emitted.flatten ++ batch ++ ts := by
  intro rest
  induction rest with
  | nil =>
    intro ndx stopndx batch emitted bs h
    simp only [streamGo] at h
    cases h
    exact ⟨[], rfl, by simp⟩
  | cons line rest ih =>
    intro ndx stopndx batch emitted bs h
    simp only [streamGo] at h
    by_cases hc : startsWithPercent (pystrip line) = true
    · rw [if_pos hc] at h
      obtain ⟨ts, hts, hjoin⟩ := ih _ _ _ _ _ h
      refine ⟨ts, ?_, hjoin⟩
      rw [lineTriples, dataLines_cons_comment rest hc, ← lineTriples]
      exact hts
    · rw [if_neg hc] at h
      have hc' : isComment line = false := by
        simp only [isComment]
        exact Bool.not_eq_true _ ▸ Bool.of_not_eq_true hc
      cases hp : parseTriple (pystrip line) with
      | none => simp only [hp] at h; cases h
      | some t =>
        simp only [hp] at h
        have key : ∀ ts, lineTriples rest = some ts →
            lineTriples (line :: rest) = some (t :: ts) := by
          intro ts hts
          rw [lineTriples, dataLines_cons_data rest hc']
          simp only [mapOptions, hp]
          rw [lineTriples] at hts
          rw [hts]
        by_cases hif : (if stopndx = 0 then ndx + (N - 1) else stopndx) ≤ ndx
        · rw [if_pos hif] at h
          obtain ⟨ts, hts, hjoin⟩ := ih _ _ _ _ _ h
          refine ⟨t :: ts, key ts hts, ?_⟩
          rw [hjoin]
          simp
        · rw [if_neg hif] at h
          obtain ⟨ts, hts, hjoin⟩ := ih _ _ _ _ _ h
          refine ⟨t :: ts, key ts hts, ?_⟩
          rw [hjoin]
          simp

/-- Size invariant of the `StreamMatrixData` loop: starting from a state in
which the open batch respects the boundary bookkeeping, every batch of a
successful run has at most `N` triples. -/
theorem streamGo_sizes (N : Nat) (hN : 1 ≤ N) :
    ∀ (rest : List String) (ndx stopndx : Nat) (batch : List Triple)
      (emitted bs : List (List Triple)),
      (stopndx = 0 → batch.length ≤ 1) →
      (stopndx ≠ 0 → batch.length + stopndx ≤ N + ndx ∧ batch.length ≤ N) →
      (∀ b ∈ emitted, b.length ≤ N) →
      streamGo N ndx stopndx batch emitted rest = some bs →
      ∀ b ∈ bs, b.length ≤ N := by
  intro rest
  induction rest with
  | nil =>
    intro ndx stopndx batch emitted bs h0 h1 h2 h
    simp only [streamGo] at h
    cases h
    intro b hb
    rcases List.mem_append.mp hb with hb | hb
    · exact h2 b hb
    · rw [List.mem_singleton.mp hb]
      by_cases hs : stopndx = 0
      · exact le_trans (h0 hs) hN
      · exact (h1 hs).2
  | cons line rest ih =>
    intro ndx stopndx batch emitted bs h0 h1 h2 h
    simp only [streamGo] at h
    by_cases hc : startsWithPercent (pystrip line) = true
    · rw [if_pos hc] at h
      refine ih _ _ _ _ _ h0 ?_ h2 h
      intro hs
      exact ⟨le_trans (h1 hs).1 (by omega), (h1 hs).2⟩
    · rw [if_neg hc] at h
      cases hp : parseTriple (pystrip line) with
      | none => simp only [hp] at h; cases h
      | some t =>
        simp only [hp] at h
        by_cases hs : stopndx = 0
        · rw [if_pos hs] at h
          by_cases hif : ndx + (N - 1) ≤ ndx
          · rw [if_pos hif] at h
            refine ih _ _ _ _ _ (fun _ => by simp) (fun hz => absurd rfl hz) ?_ h
            intro b hb
            rcases List.mem_append.mp hb with hb | hb
            · exact h2 b hb
            · rw [List.mem_singleton.mp hb]
              exact le_trans (h0 hs) hN
          · rw [if_neg hif] at h
            refine ih _ _ _ _ _ (fun hz => absurd hz (by omega)) ?_ h2 h
            intro _
            have hb1 : batch.length ≤ 1 := h0 hs
            constructor
            · simp only [List.length_append, List.length_cons, List.length_nil]
              omega
            · simp only [List.length_append, List.length_cons, List.length_nil]
              omega
        · rw [if_neg hs] at h
          by_cases hif : stopndx ≤ ndx
          · rw [if_pos hif] at h
            refine ih _ _ _ _ _ (fun _ => by simp) (fun hz => absurd rfl hz) ?_ h
            intro b hb
            rcases List.mem_append.mp hb with hb | hb
            · exact h2 b hb
            · rw [List.mem_singleton.mp hb]
              exact (h1 hs).2
          · rw [if_neg hif] at h
            refine ih _ _ _ _ _ (fun hz => absurd hz hs) ?_ h2 h
            intro _
            have := h1 hs
            simp only [List.length_append, List.length_cons, List.length_nil]
            omega

/-- Abort invariant of the `StreamMatrixData` loop: once a malformed
non-comment line lies ahead, the stream fails, whatever state the loop is
in. -/
theorem streamGo_none_of_bad (N : Nat) (l : String)
    (hcl : isComment l = false) (hpl : parseTriple (pystrip l) = none) :
    ∀ (rest : List String) (ndx stopndx : Nat) (batch : List Triple)
      (emitted : List (List Triple)), l ∈ rest →
      streamGo N ndx stopndx batch emitted rest = none := by
  intro rest
  induction rest with
  | nil => intro _ _ _ _ hmem; cases hmem
  | cons line rest ih =>
    intro ndx stopndx batch emitted hmem
    simp only [streamGo]
    by_cases hc : startsWithPercent (pystrip line) = true
    · rw [if_pos hc]
      rcases List.mem_cons.mp hmem with rfl | hmem'
      · exact absurd hc (by simpa [isComment] using hcl)
      · exact ih _ _ _ _ hmem'
    · rw [if_neg hc]
      cases hp : parseTriple (pystrip line) with
      | none => simp only [hp]
      | some t =>
        rcases List.mem_cons.mp hmem with rfl | hmem'
        · rw [hpl] at hp; cases hp
        · simp only [hp]
          by_cases hif : (if stopndx = 0 then ndx + (N - 1) else stopndx) ≤ ndx
          · rw [if_pos hif]
            exact ih _ _ _ _ hmem'
          · rw [if_neg hif]
            exact ih _ _ _ _ hmem'

theorem parseIDsFrom_length : ∀ (lines : List String) (k : Int),
    (parseIDsFrom k lines).length = lines.length := by
  intro lines
  induction lines with
  | nil => intro k; rfl
  | cons l ls ih => intro k; simp [parseIDsFrom, ih]

theorem parseIDsFrom_lookup_isSome : ∀ (lines : List String) (k0 k : Int),
    (List.lookup k (parseIDsFrom k0 lines)).isSome = true ↔
      k0 ≤ k ∧ k < k0 + lines.length := by
  intro lines
  induction lines with
  | nil =>
    intro k0 k
    simp only [parseIDsFrom, List.lookup, List.length_nil]
    constructor
    · intro h; cases h
    · intro h; omega
  | cons l ls ih =>
    intro k0 k
    by_cases hk : k = k0
    · subst hk
      simp only [parseIDsFrom, List.lookup, beq_self_eq_true, List.length_cons]
      constructor
      · intro _
        constructor
        · omega
        · push_cast
          omega
      · intro _; rfl
    · simp only [parseIDsFrom, List.lookup, beq_eq_false_iff_ne.mpr hk, List.length_cons]
      rw [ih (k0 + 1) k]
      push_cast
      omega

theorem parseIDsFrom_lookup_at : ∀ (lines : List String) (k0 : Int) (i : Nat),
    i < lines.length →
    List.lookup (k0 + i) (parseIDsFrom k0 lines) =
      some (firstField (lines.getD i "")) := by
  intro lines
  induction lines with
  | nil => intro k0 i h; cases h
  | cons l ls ih =>
    intro k0 i h
    cases i with
    | zero =>
      simp [parseIDsFrom, List.lookup]
    | succ i =>
      have hne : k0 + ((i : Nat) + 1 : Nat) ≠ k0 := by push_cast; omega
      simp only [parseIDsFrom, List.lookup, beq_eq_false_iff_ne.mpr hne]
      have harith : k0 + ((i : Nat) + 1 : Nat) = (k0 + 1) + (i : Nat) := by
        push_cast; omega
      rw [harith, ih (k0 + 1) i (by simpa using Nat.lt_of_succ_lt_succ h)]
      simp [List.getD]

/-- The per-batch insert loop of `LoadMTX`, around a batch whose resolution
fails: every earlier batch's records are inserted, the failing batch's are
not, and the loop stops with the lookup failure. -/
theorem runBatches_lookup_stop (rowMeta colMeta : List (Int × String))
    (bad : List Triple) (post : List (List Triple))
    (hbad : resolveBatch rowMeta colMeta bad = none) :
    ∀ (pre : List (List Triple)) (preRecs : List (List ExprRecord)),
      mapOptions (resolveBatch rowMeta colMeta) pre = some preRecs →
      (∀ r ∈ preRecs, r ≠ []) →
      runBatches rowMeta colMeta (pre ++ bad :: post) =
        (preRecs, some LoadErr.lookup) := by
  intro pre
  induction pre with
  | nil =>
    intro preRecs h1 _
    simp only [mapOptions] at h1
    cases h1
    simp only [List.nil_append, runBatches, hbad]
  | cons b pre ih =>
    intro preRecs h1 h2
    simp only [mapOptions] at h1
    cases hb : resolveBatch rowMeta colMeta b with
    | none => rw [hb] at h1; cases h1
    | some recs =>
      cases hp : mapOptions (resolveBatch rowMeta colMeta) pre with
      | none => rw [hb, hp] at h1; cases h1
      | some rs =>
        rw [hb, hp] at h1
        cases h1
        have hrecs : recs ≠ [] := h2 recs (List.mem_cons_self _ _)
        have haccept : dbAcceptsInsert recs = true := by
          simp [dbAcceptsInsert, hrecs]
        simp only [List.cons_append, runBatches, hb, haccept, if_true, List.append_eq]
        rw [ih rs hp (fun r hr => h2 r (List.mem_cons_of_mem _ hr))]

/-! ## Claim theorems -/

/-- C1: for every matrix file and every batch size `N ≥ 1`, a successful run
of `StreamMatrixData` emits batches whose concatenation, in emission order,
is exactly the parsed `(rowOrdinal, colOrdinal, value)` triples of the
non-comment lines in file order — no triple duplicated or dropped — and the
total triple count across all batches equals the count of non-comment
lines. -/
theorem C1_stream_coverage (N : Nat) (lines : List String)
    (bs : List (List Triple)) (_hN : 1 ≤ N)
    (h : streamMatrix N lines = some bs) :
    lineTriples lines = some bs.flatten ∧
    bs.flatten.length = (dataLines lines).length := by
  obtain ⟨ts, hts, hjoin⟩ := streamGo_join N lines 0 0 [] [] bs h
  simp only [List.flatten_nil, List.nil_append] at hjoin
  rw [hjoin]
  refine ⟨hts, ?_⟩
  exact mapOptions_length hts

/-- Witness for C1 at a concrete file (`N = 2`, one comment line). -/
theorem C1_stream_coverage_witness :
    lineTriples ["1 1 1.0", "% c", "2 2 2.0"] =
      some ([[(1, 1, ⟨10, 1⟩)], [(2, 2, ⟨20, 1⟩)]] : List (List Triple)).flatten ∧
    ([[(1, 1, ⟨10, 1⟩)], [(2, 2, ⟨20, 1⟩)]] : List (List Triple)).flatten.length =
      (dataLines ["1 1 1.0", "% c", "2 2 2.0"]).length :=
  C1_stream_coverage 2 ["1 1 1.0", "% c", "2 2 2.0"]
    [[(1, 1, ⟨10, 1⟩)], [(2, 2, ⟨20, 1⟩)]] (by decide) (by decide)

/-- C2 counterexample: with `N = 2` and a comment-free three-line matrix
file, `StreamMatrixData` emits a first (non-final) batch of one triple, not
two — the claim that every batch except possibly the last contains exactly
`N` triples is false. -/
theorem C2_exact_sizes_cex :
    streamMatrix 2 ["1 1 1.0", "2 2 2.0", "3 3 3.0"] =
      some [[(1, 1, ⟨10, 1⟩)], [(2, 2, ⟨20, 1⟩), (3, 3, ⟨30, 1⟩)]] ∧
    allFullButLast 2 [[(1, 1, ⟨10, 1⟩)], [(2, 2, ⟨20, 1⟩), (3, 3, ⟨30, 1⟩)]] = false := by
  constructor
  · decide
  · decide

/-- C2 (amended): for every matrix file and every batch size `N ≥ 1`, every
batch emitted by `StreamMatrixData` contains at most `N` triples; the exact
count of a non-final batch can be below `N` (e.g. the first batch of a
comment-free file closes after `N − 1` triples) because the close boundary
is computed from raw line indices, off by one and counting comment
lines. -/
theorem C2_batch_size_bound (N : Nat) (lines : List String)
    (bs : List (List Triple)) (hN : 1 ≤ N)
    (h : streamMatrix N lines = some bs) :
    ∀ b ∈ bs, b.length ≤ N :=
  streamGo_sizes N hN lines 0 0 [] [] bs (fun _ => by simp)
    (fun hz => absurd rfl hz) (by simp) h

/-- Witness for C2 (amended) at a concrete file. -/
theorem C2_batch_size_bound_witness :
    List.length ([(2, 2, ⟨20, 1⟩), (3, 3, ⟨30, 1⟩)] : List Triple) ≤ 2 :=
  C2_batch_size_bound 2 ["1 1 1.0", "2 2 2.0", "3 3 3.0"]
    [[(1, 1, ⟨10, 1⟩)], [(2, 2, ⟨20, 1⟩), (3, 3, ⟨30, 1⟩)]] (by decide) (by decide)
    [(2, 2, ⟨20, 1⟩), (3, 3, ⟨30, 1⟩)] (by decide)

/-- C3: a matrix file with zero data lines makes `StreamMatrixData` yield
exactly one empty batch (true), and `LoadMTX` then calls the bulk insert on
the empty record set, producing the SQL text `" INSERT INTO expr VALUES "`
with zero value tuples — which the database rejects — rather than
performing a no-op: the load stops with a database error and zero records
inserted. -/
theorem C3_empty_stream_insert :
    streamMatrix 1024 [] = some [[]] ∧
    (∀ colLines rowLines : List String,
      loadMTX colLines rowLines [] = ([], some LoadErr.db)) ∧
    insertSQL "expr" [] = " INSERT INTO expr VALUES " :=
  ⟨by decide, fun _ _ => rfl, by decide⟩

/-- C4 counterexample: with `N = 3`, inserting a comment line between the
first and second data lines changes which batches `StreamMatrixData` emits
relative to the same file with the comment removed — comment lines do count
toward the batch-boundary accounting. -/
theorem C4_comment_accounting_cex :
    streamMatrix 3 ["1 1 1.0", "% note", "2 2 2.0", "3 3 3.0"] =
      some [[(1, 1, ⟨10, 1⟩)], [(2, 2, ⟨20, 1⟩), (3, 3, ⟨30, 1⟩)]] ∧
    dataLines ["1 1 1.0", "% note", "2 2 2.0", "3 3 3.0"] =
      ["1 1 1.0", "2 2 2.0", "3 3 3.0"] ∧
    streamMatrix 3 ["1 1 1.0", "2 2 2.0", "3 3 3.0"] =
      some [[(1, 1, ⟨10, 1⟩), (2, 2, ⟨20, 1⟩)], [(3, 3, ⟨30, 1⟩)]] ∧
    ([[(1, 1, ⟨10, 1⟩)], [(2, 2, ⟨20, 1⟩), (3, 3, ⟨30, 1⟩)]] : List (List Triple)) ≠
      [[(1, 1, ⟨10, 1⟩), (2, 2, ⟨20, 1⟩)], [(3, 3, ⟨30, 1⟩)]] := by
  refine ⟨by decide, by decide, by decide, by decide⟩

/-- C4 (amended): comment lines (first non-whitespace character `%`) never
appear as triples: the concatenation of the emitted batches equals the one
obtained from the same file with the comment lines removed, and its length
is the number of non-comment lines.  However, comment lines do count toward
the batch-boundary accounting (the boundary is computed from raw line
indices), so the sizes of individual batches can differ between the two
files. -/
theorem C4_comments_never_triples (N : Nat) (lines : List String)
    (bs bs' : List (List Triple)) (_hN : 1 ≤ N)
    (h : streamMatrix N lines = some bs)
    (h' : streamMatrix N (dataLines lines) = some bs') :
    bs.flatten = bs'.flatten ∧
    bs.flatten.length = (dataLines lines).length := by
  obtain ⟨ts, hts, hjoin⟩ := streamGo_join N lines 0 0 [] [] bs h
  obtain ⟨ts', hts', hjoin'⟩ := streamGo_join N (dataLines lines) 0 0 [] [] bs' h'
  simp only [List.flatten_nil, List.nil_append] at hjoin hjoin'
  have hsame : lineTriples (dataLines lines) = lineTriples lines := by
    simp only [lineTriples, dataLines_idem]
  rw [hsame, hts] at hts'
  cases hts'
  rw [hjoin, hjoin']
  exact ⟨rfl, mapOptions_length hts⟩

/-- Witness for C4 (amended) at a concrete file. -/
theorem C4_comments_never_triples_witness :
    ([[(1, 1, ⟨10, 1⟩)], [(2, 2, ⟨20, 1⟩), (3, 3, ⟨30, 1⟩)]] : List (List Triple)).flatten =
      ([[(1, 1, ⟨10, 1⟩), (2, 2, ⟨20, 1⟩)], [(3, 3, ⟨30, 1⟩)]] : List (List Triple)).flatten ∧
    ([[(1, 1, ⟨10, 1⟩)], [(2, 2, ⟨20, 1⟩), (3, 3, ⟨30, 1⟩)]] : List (List Triple)).flatten.length =
      (dataLines ["1 1 1.0", "% note", "2 2 2.0", "3 3 3.0"]).length :=
  C4_comments_never_triples 3 ["1 1 1.0", "% note", "2 2 2.0", "3 3 3.0"]
    [[(1, 1, ⟨10, 1⟩)], [(2, 2, ⟨20, 1⟩), (3, 3, ⟨30, 1⟩)]]
    [[(1, 1, ⟨10, 1⟩), (2, 2, ⟨20, 1⟩)], [(3, 3, ⟨30, 1⟩)]]
    (by decide) (by decide) (by decide)

/-- C5: round-trip — with column index lines `c1`,`c2`,`c3`, row index lines
`g1`,`g2`, and matrix lines `1 2 0.5` and `2 3 1.25`, `LoadMTX` produces
exactly the records `(g1, c2, 0.5)` and `(g2, c3, 1.25)` in that order (a
single batch, one bulk insert, no error), the gene id resolved through the
row index and the cell id through the column index; `0.5` and `1.25` are
the parsed decimals `5/10^1` and `125/10^2`. -/
theorem C5_round_trip :
    loadMTX ["c1", "c2", "c3"] ["g1", "g2"] ["1 2 0.5", "2 3 1.25"] =
      ([[⟨"g1", "c2", ⟨5, 1⟩⟩, ⟨"g2", "c3", ⟨125, 2⟩⟩]], none) := by
  decide

/-- C6: for every metadata file, the index built by `ParseIDs` has size
equal to the file's line count, its keys are exactly the contiguous
ordinals `1` through the line count, and ordinal `i` maps to the leading
tab-delimited field of line `i` after trimming whitespace at the line ends
(the whole trimmed line when it contains no tab). -/
theorem C6_parse_ids (lines : List String) :
    (parseIDs lines).length = lines.length ∧
    (∀ k : Int, (List.lookup k (parseIDs lines)).isSome = true ↔
      1 ≤ k ∧ k ≤ (lines.length : Int)) ∧
    (∀ i : Nat, i < lines.length →
      List.lookup ((i : Int) + 1) (parseIDs lines) =
        some (firstField (lines.getD i ""))) ∧
    (∀ l : String, (∀ c ∈ (pystrip l).toList, c ≠ '\t') →
      firstField l = pystrip l) := by
  refine ⟨parseIDsFrom_length lines 1, ?_, ?_, ?_⟩
  · intro k
    rw [parseIDs, parseIDsFrom_lookup_isSome lines 1 k]
    omega
  · intro i hi
    have := parseIDsFrom_lookup_at lines 1 i hi
    rw [parseIDs]
    rw [show (i : Int) + 1 = 1 + (i : Int) from by omega]
    exact this
  · intro l hl
    rw [firstField, List.takeWhile_eq_self_iff.mpr ?_]
    · cases pystrip l
      rfl
    · intro c hc
      simpa using hl c hc
/-- Witness for C6 at a concrete two-line metadata file. -/
theorem C6_parse_ids_witness :
    (parseIDs ["g1\tx", "g2"]).length = (["g1\tx", "g2"] : List String).length ∧
    ((List.lookup (3 : Int) (parseIDs ["g1\tx", "g2"])).isSome = true ↔
      1 ≤ (3 : Int) ∧ (3 : Int) ≤ ((["g1\tx", "g2"] : List String).length : Int)) ∧
    List.lookup (((1 : Nat) : Int) + 1) (parseIDs ["g1\tx", "g2"]) =
      some (firstField ((["g1\tx", "g2"] : List String).getD 1 "")) :=
  ⟨(C6_parse_ids ["g1\tx", "g2"]).1,
   (C6_parse_ids ["g1\tx", "g2"]).2.1 3,
   (C6_parse_ids ["g1\tx", "g2"]).2.2.1 1 (by decide)⟩

/-- C7 counterexample: the stripped line `1 2 0.5 junk` splits into four
space-delimited fields, yet `StreamMatrixData` accepts it — the extra
field is ignored and the triple `(1, 2, 0.5)` is emitted with no
`ParseError` — so the claim that a line with more than three fields fails
is false. -/
theorem C7_extra_fields_cex :
    (pysplitSpace (pystrip "1 2 0.5 junk")).length = 4 ∧
    streamMatrix 7 ["1 2 0.5 junk"] = some [[(1, 2, ⟨5, 1⟩)]] := by
  refine ⟨by decide, by decide⟩

/-- C7 (amended): each retained (non-comment) line is split on single-space
delimiters and its first three fields are parsed as integer, integer and
floating-point value; a retained line on which this parse fails — fewer
than three fields, or a non-numeric value among the first three fields —
aborts the entire stream with a `ParseError`, with no per-line recovery
(fields beyond the third are ignored). -/
theorem C7_parse_error_aborts (N : Nat) (lines : List String) (l : String)
    (_hN : 1 ≤ N) (hmem : l ∈ lines) (hc : isComment l = false)
    (hp : parseTriple (pystrip l) = none) :
    streamMatrix N lines = none :=
  streamGo_none_of_bad N l hc hp lines 0 0 [] [] hmem

/-- Witness for C7 (amended): a two-field line aborts the stream. -/
theorem C7_parse_error_aborts_witness :
    streamMatrix 5 ["1 1 1.0", "1 2"] = none :=
  C7_parse_error_aborts 5 ["1 1 1.0", "1 2"] "1 2" (by decide)
    (by decide) (by decide) (by decide)

/-- C8: during `LoadMTX`, when a batch contains a triple whose row or
column ordinal is absent from the corresponding index, resolution fails
with a `LookupError` before that batch's bulk insert is issued: the
committed inserts are exactly those of the batches before the failing one
(no partial-batch insert, no retry), and the load stops with the lookup
failure. -/
theorem C8_lookup_aborts_batch (colLines rowLines mtxLines : List String)
    (pre : List (List Triple)) (bad : List Triple) (post : List (List Triple))
    (preRecs : List (List ExprRecord)) (t : Triple)
    (hstream : streamMatrix 1024 mtxLines = some (pre ++ bad :: post))
    (hpre : mapOptions (resolveBatch (parseIDs rowLines) (parseIDs colLines)) pre =
      some preRecs)
    (hne : ∀ r ∈ preRecs, r ≠ [])
    (ht : t ∈ bad)
    (hmiss : resolveTriple (parseIDs rowLines) (parseIDs colLines) t = none) :
    loadMTX colLines rowLines mtxLines = (preRecs, some LoadErr.lookup) := by
  have hbad : resolveBatch (parseIDs rowLines) (parseIDs colLines) bad = none :=
    mapOptions_eq_none_of_mem hmiss ht
  rw [loadMTX, hstream]
  exact runBatches_lookup_stop _ _ bad post hbad pre preRecs hpre hne

/-- Witness for C8: a one-line matrix file whose column ordinal `2` is
absent from a one-line column index — the load commits nothing and stops
with the lookup failure. -/
theorem C8_lookup_aborts_batch_witness :
    loadMTX ["c1"] ["g1"] ["1 2 1.0"] = ([], some LoadErr.lookup) :=
  C8_lookup_aborts_batch ["c1"] ["g1"] ["1 2 1.0"]
    [] [(1, 2, ⟨10, 1⟩)] [] [] (1, 2, ⟨10, 1⟩)
    (by decide) (by decide) (by simp) (by decide) (by decide)

/-- C9: with cluster lines `1\t10\tcellA` and `1\t11\tcellB` in a directory
whose final path component is `datasetX`, `LoadClusters` produces exactly
the records `(1, 10, cellA, datasetX)` and `(1, 11, cellB, datasetX)` in
that order — each line parsed as three tab-separated trimmed fields and
tagged with the dataset name — and issues them as a single bulk insert. -/
theorem C9_cluster_round_trip :
    loadClusters "datasetX" ["1\t10\tcellA", "1\t11\tcellB"] =
      ([[⟨1, 10, "cellA", "datasetX"⟩, ⟨1, 11, "cellB", "datasetX"⟩]], none) := by
  decide

/-- C10: for a cluster file with zero lines, `LoadClusters` does not no-op:
it still calls the bulk insert on the empty record list, whose SQL text
`" INSERT INTO clusters VALUES "` has no `VALUES` tuples, so the load fails
with a database error and zero records are inserted. -/
theorem C10_empty_clusters_db_error :
    (∀ datasetName : String,
      loadClusters datasetName [] = ([], some LoadErr.db)) ∧
    insertSQL "clusters" [] = " INSERT INTO clusters VALUES " :=
  ⟨fun _ => rfl, by decide⟩
